import Mathlib

/-!
# Verification of the ludivina thermal-printer bot core

Shallow embedding of the algorithmic core of `ludivina` (a Telegram bot that
prints incoming messages on a thermal receipt printer) together with proofs of
the specified properties.

Python strings are modelled as `List Char` where character-level operations
matter (the text wrapper) and as `String` where only whole messages are
compared.  Python `set[int]` is modelled as `Finset Int`.  Device and chat
side effects are modelled as event traces.
-/

namespace Ludivina

/-! ## Text Formatter (`utils.split_text`)

```python
def split_text(text: str, max_line_length: int = 32) -> list[str]:
    words = filter(None, text.split())
    lines = ['']
    for word in words:
        word = word[0:max_line_length]
        last_line = lines[-1]
        if len(last_line) + 1 + len(word) <= max_line_length:
            lines[-1] = (last_line + ' ' + word) if last_line else word
        else:
            lines.append(word)
    return list(filter(None, lines))
```
-/

/-- Helper for `pySplit`: walks the text, `cur` holds the characters of the
word currently being read (in reverse). -/
def pySplitAux : List Char → List Char → List (List Char)
  | [], cur => if cur.isEmpty then [] else [cur.reverse]
  | c :: cs, cur =>
    if c.isWhitespace then
      if cur.isEmpty then pySplitAux cs [] else cur.reverse :: pySplitAux cs []
    else
      pySplitAux cs (c :: cur)

/-- Python `text.split()` with no argument: split on runs of whitespace
(spaces, tabs, newlines, carriage returns, ...), never producing empty
tokens. -/
def pySplit (text : List Char) : List (List Char) :=
  pySplitAux text []

/-- The `for word in words` loop of `split_text`.  Python mutates the list
`lines` only at its end, so it is carried as `prev` (all finished lines) plus
`last` (the line currently being filled, `lines[-1]`). -/
def splitLoop (maxLen : Nat) : List (List Char) → List (List Char) → List Char → List (List Char)
  | [], prev, last => prev ++ [last]
  | w :: ws, prev, last =>
    let word := w.take maxLen
    if last.length + 1 + word.length ≤ maxLen then
      splitLoop maxLen ws prev (if last.isEmpty then word else last ++ ' ' :: word)
    else
      splitLoop maxLen ws (prev ++ [last]) word

/-- `utils.split_text`: collapse whitespace into words, truncate each word to
`maxLineLength` characters, greedily pack words into lines, drop empty
lines. -/
def split_text (text : List Char) (maxLineLength : Nat := 32) : List (List Char) :=
  (splitLoop maxLineLength ((pySplit text).filter (fun w => !w.isEmpty)) [] []).filter
    (fun l => !l.isEmpty)

/-- Joining a list of lines with single-space separators (the reading of the
output used to compare it against the input's words). -/
def joinSep : List (List Char) → List Char
  | [] => []
  | l :: ls => l ++ (ls.map (fun v => ' ' :: v)).flatten

/-! ## Image Processor (`image.beautify`)

```python
def beautify(imagearray: bytearray, width: int, height: int, max_width: int) -> Image:
    image = Image.open(BytesIO(imagearray))
    is_landscape = width > height
    if is_landscape:
        image = image.rotate(90, expand=True)
    image = ImageEnhance.Sharpness(image).enhance(2.5)
    scale = image.width / float(max_width)
    image = image.resize((max_width, int(image.height / scale)))
    return image
```

Only the dimension arithmetic of the decoded bitmap is in scope: `Image.open`
is external decoding, so the decoded bitmap is modelled by its pixel
dimensions; `rotate(90, expand=True)` swaps width and height exactly; the
sharpness pass preserves dimensions.  The two Python `/` operations are IEEE
binary64 divisions; they are modelled bit-exactly by rounding the exact
rational quotient to a 53-bit significand with round-to-nearest, ties to even
(the magnitudes involved are far from binary64 overflow and subnormal ranges,
so the unbounded-exponent model agrees with the hardware). -/

/-- Scale the positive fraction `num / den` by a power of two (recorded in
`k`) until the quotient lies in `[2^52, 2^53)`; the value
`(num / den) * 2 ^ k` is invariant.  `fuel` bounds the walk (4096 covers the
whole binary64 exponent range). -/
def findExp : Nat → Nat → Nat → Int → Nat × Nat × Int
  | 0, num, den, k => (num, den, k)
  | fuel + 1, num, den, k =>
    if num < 2 ^ 52 * den then findExp fuel (num * 2) den (k - 1)
    else if 2 ^ 53 * den ≤ num then findExp fuel num (den * 2) (k + 1)
    else (num, den, k)

/-- Round the nonnegative fraction `num / den` to the nearest integer, ties
to even. -/
def roundHalfEven (num den : Nat) : Nat :=
  let q := num / den
  let r := num % den
  if 2 * r < den then q
  else if den < 2 * r then q + 1
  else if q % 2 = 0 then q else q + 1

/-- Round the nonnegative fraction `num / den` to the nearest binary64 value,
returned as mantissa and binary exponent: the value is `m * 2 ^ k`. -/
def roundDouble (num den : Nat) : Nat × Int :=
  if num = 0 then (0, 0)
  else
    let (n, d, k) := findExp 4096 num den 0
    (roundHalfEven n d, k)

/-- Binary64 division of the integer `h` by the binary64 value `m * 2 ^ k`
(one correctly rounded operation). -/
def fdivIntByDouble (h : Nat) (s : Nat × Int) : Nat × Int :=
  if 0 ≤ s.2 then roundDouble h (s.1 * 2 ^ s.2.toNat)
  else roundDouble (h * 2 ^ (-s.2).toNat) s.1

/-- Python `int(x)` on the nonnegative binary64 value `m * 2 ^ k`:
truncation toward zero. -/
def truncDouble (s : Nat × Int) : Nat :=
  if 0 ≤ s.2 then s.1 * 2 ^ s.2.toNat else s.1 / 2 ^ (-s.2).toNat

/-- The pixel dimensions of a PIL bitmap. -/
structure PILImage where
  width : Nat
  height : Nat
  deriving DecidableEq, Repr

/-- The dimension behaviour of `image.beautify`: `decoded` is the decoded
input bitmap, `width`/`height` are the declared dimensions used for the
landscape test, `max_width` the print-head width. -/
def beautify (decoded : PILImage) (width height : Nat) (max_width : Nat) : PILImage :=
  let image := if height < width then PILImage.mk decoded.height decoded.width else decoded
  let scale := roundDouble image.width max_width
  PILImage.mk max_width (truncDouble (fdivIntByDouble image.height scale))

/-! ## Event traces

Every observable side effect of the handlers in `main.py` — chat replies,
admin notifications, and the calls on the `thermalprinter` device boundary —
is recorded as one event.  A handler is modelled as the trace it produces
plus the exception it raises, if any. -/

/-- One observable side effect of `main.py`. -/
inductive Ev where
  /-- `printer_installed()`: the `Path(PRINTER_DEVICE).exists()` probe. -/
  | checkDevice (present : Bool)
  /-- Entering `with ThermalPrinter(**PRINTER_SETTINGS)`: serial connection opened. -/
  | connOpen
  /-- `printer.online()`. -/
  | online
  /-- `sleep(0.05)` settle delay. -/
  | settle
  /-- `printer.status(raise_on_error=False)`, recording the paper flag read. -/
  | statusQuery (paper : Bool)
  /-- `printer.out(text, ...)`: one printed line. -/
  | outLine (text : List Char) (bold : Bool) (doubleHeight : Bool)
  /-- `printer.image(image)`: the processed bitmap sent to the head. -/
  | outImage (width : Nat) (height : Nat)
  /-- `printer.feed(n)`. -/
  | feedPaper (n : Nat)
  /-- `printer.offline()`. -/
  | offline
  /-- Leaving the `with` block: serial connection closed (runs on every exit path). -/
  | connClose
  /-- `update.message.reply_text(msg)`. -/
  | reply (msg : String)
  /-- `context.bot.send_message(chat_id=ADMIN_TELEGRAM_USER_ID, text=msg)`. -/
  | notifyAdmin (msg : String)
  deriving DecidableEq, Repr

/-- The two business-level printer exceptions of `exceptions.py`. -/
inductive PrinterErr where
  | noPrinterFound
  | noPaperLeft
  deriving DecidableEq, Repr

/-- The state of the physical device, as observed by `require_printer`:
whether the device path exists, whether the status query reports paper, and
the `printer.max_column` capacity used by `print_message`. -/
structure Device where
  present : Bool
  paper : Bool
  maxColumn : Nat
  deriving DecidableEq, Repr

/-- `require_printer` from `main.py`:

```python
def require_printer(func):
    def wrapper(*args, **kwargs):
        if not printer_installed():
            raise NoPrinterFoundException()
        with ThermalPrinter(**PRINTER_SETTINGS) as printer:
            printer.online()
            sleep(0.05)
            has_paper = printer.status(raise_on_error=False)['paper']
            if not has_paper:
                raise NoPaperLeftException()
            ret = func(printer, *args, **kwargs)
            printer.offline()
            return ret
    return wrapper
```

The wrapped job body is a sequence of device output calls, modelled as a
trace (the bodies in `main.py` are plain output loops that do not raise on
their own).  The `with` block closes the connection on every exit path,
including the `NoPaperLeftException` raise; `printer.offline()` however runs
only after the body returns. -/
def require_printer (dev : Device) (body : List Ev) : List Ev × Option PrinterErr :=
  if dev.present = false then
    ([.checkDevice false], some .noPrinterFound)
  else
    let pre := [Ev.checkDevice true, .connOpen, .online, .settle, .statusQuery dev.paper]
    if dev.paper = false then
      (pre ++ [.connClose], some .noPaperLeft)
    else
      (pre ++ body ++ [.offline, .connClose], none)

/-- Sequencing of two effectful steps with Python exception propagation: if
the first raises, the second never runs. -/
def pseq (a b : List Ev × Option PrinterErr) : List Ev × Option PrinterErr :=
  match a.2 with
  | some e => (a.1, some e)
  | none => (a.1 ++ b.1, b.2)

/-- Models the external `timestamp.strftime("%d/%m/%Y")` rendering (libc date
formatting, outside the core); no claim depends on the rendered digits, only
on the single signature line carrying them.  Timestamps are Unix seconds. -/
def strftimeDDMMYYYY (t : Int) : String :=
  "%d/%m/%Y@" ++ toString t

/-- `print_message`: each wrapped line printed double-height and bold, inside
its own `require_printer` scope. -/
def print_message (dev : Device) (text : List Char) : List Ev × Option PrinterErr :=
  require_printer dev
    ((split_text text dev.maxColumn).map (fun l => Ev.outLine l true true))

/-- The signature string of `print_signature`:
`f"{author}, {human_date}" if author else f"{human_date}"` (an empty author
string is falsy in Python). -/
def signatureText (author : String) (humanDate : String) : String :=
  if author = "" then humanDate else author ++ ", " ++ humanDate

/-- `print_signature`: one double-height (not bold) line, inside its own
`require_printer` scope. -/
def print_signature (dev : Device) (author : String) (timestamp : Int) :
    List Ev × Option PrinterErr :=
  require_printer dev
    [Ev.outLine (signatureText author (strftimeDDMMYYYY timestamp)).data false true]

/-- `print_feed`: one feed call, inside its own `require_printer` scope. -/
def print_feed (dev : Device) (amount : Nat := 2) : List Ev × Option PrinterErr :=
  require_printer dev [.feedPaper amount]

/-- `print_image`: one bitmap emission, inside its own `require_printer`
scope. -/
def print_image (dev : Device) (img : PILImage) : List Ev × Option PrinterErr :=
  require_printer dev [.outImage img.width img.height]

/-! ## Access Control Gate and Freshness Filter -/

/-- The fields of a Telegram update consumed by the handlers. -/
structure UpdateMsg where
  userId : Int
  firstName : String
  lastName : String
  username : String
  text : List Char
  /-- `update.message.date`, Unix seconds. -/
  date : Int
  deriving DecidableEq, Repr

/-- The verdict of the access-control checks inside the `auth` wrapper. -/
inductive Decision where
  | denyAdmin
  | denyUnregistered
  | allow
  deriving DecidableEq, Repr

/-- The decision logic of the `auth(admin=...)` decorator in `main.py`: a
requester needing admin rights must be the configured admin, and every
requester (the admin included) must be in `ALLOWED_TELEGRAM_USER_IDS`. -/
def authDecision (adminId : Int) (allowed : Finset Int) (userId : Int)
    (requiresAdmin : Bool) : Decision :=
  if requiresAdmin = true ∧ userId ≠ adminId then .denyAdmin
  else if userId ∉ allowed then .denyUnregistered
  else .allow

/-- The denial reply of the `admin` gate. -/
def denyAdminMsg (u : UpdateMsg) : String :=
  u.firstName ++ ", no tienes permisos de administración."

/-- The denial reply sent to a requester that is not in the registry. -/
def denyUnregisteredMsg (u : UpdateMsg) : String :=
  u.firstName ++ ", todavía no tienes permiso."

/-- The out-of-band note sent to the admin when an unregistered requester
shows up. -/
def unauthorizedNote (u : UpdateMsg) : String :=
  "El usuario " ++ u.firstName ++ " " ++ u.lastName ++ " con id "
    ++ toString u.userId ++ " (" ++ u.username ++ ") no tiene autorización."

/-- The `auth` decorator wrapping a handler body `inner`: deny replies (with
the admin notified on the unregistered case), or `'Recibido'`, the body, and
`'OK'` — the `'OK'` reply is skipped when the body raises, because the
exception propagates before `reply_text('OK')` runs. -/
def auth_wrap (admin : Bool) (adminId : Int) (allowed : Finset Int) (u : UpdateMsg)
    (inner : List Ev × Option PrinterErr) : List Ev × Option PrinterErr :=
  match authDecision adminId allowed u.userId admin with
  | .denyAdmin =>
    ([.reply (denyAdminMsg u)], none)
  | .denyUnregistered =>
    ([.reply (denyUnregisteredMsg u), .notifyAdmin (unauthorizedNote u)], none)
  | .allow =>
    ([Ev.reply "Recibido"] ++ inner.1 ++
      (match inner.2 with
       | none => [Ev.reply "OK"]
       | some _ => []), inner.2)

/-- The `ignore_old_updates` decorator: messages dated more than 24 hours
(86400 seconds) before `now` make the wrapped body return `None` without
running; nothing is replied. -/
def ignore_old_updates_wrap (now : Int) (u : UpdateMsg)
    (inner : List Ev × Option PrinterErr) : List Ev × Option PrinterErr :=
  if u.date < now - 86400 then ([], none) else inner

/-- The body of `text_handler` (inside both decorators): print the wrapped
message, the signature, then the trailing feed — each in its own printer
scope, with exceptions short-circuiting the rest. -/
def text_handler_body (dev : Device) (u : UpdateMsg) : List Ev × Option PrinterErr :=
  pseq (print_message dev u.text)
    (pseq (print_signature dev u.firstName u.date) (print_feed dev 2))

/-- `text_handler` as registered: `auth()` is the outer decorator and
`ignore_old_updates` the inner one, so access control runs first. -/
def text_handler (adminId : Int) (allowed : Finset Int) (now : Int) (dev : Device)
    (u : UpdateMsg) : List Ev × Option PrinterErr :=
  auth_wrap false adminId allowed u
    (ignore_old_updates_wrap now u (text_handler_body dev u))

/-- `MAX_WIDTH` from `main.py`: the print-head pixel width. -/
def MAX_WIDTH : Nat := 384

/-- The body of `image_handler` (inside both decorators): beautify the
downloaded photo, print it, then the caption if present and non-empty
(Python truthiness), then signature and feed.  `decoded` are the decoded
bitmap's dimensions, `declW`/`declH` the dimensions declared by Telegram. -/
def image_handler_body (dev : Device) (decoded : PILImage) (declW declH : Nat)
    (caption : Option (List Char)) (u : UpdateMsg) : List Ev × Option PrinterErr :=
  let img := beautify decoded declW declH MAX_WIDTH
  pseq (print_image dev img)
    (pseq (match caption with
           | some c => if c.isEmpty then ([], none) else print_message dev c
           | none => ([], none))
      (pseq (print_signature dev u.firstName u.date) (print_feed dev 2)))

/-- `image_handler` as registered: `auth()` outside `ignore_old_updates`. -/
def image_handler (adminId : Int) (allowed : Finset Int) (now : Int) (dev : Device)
    (decoded : PILImage) (declW declH : Nat) (caption : Option (List Char))
    (u : UpdateMsg) : List Ev × Option PrinterErr :=
  auth_wrap false adminId allowed u
    (ignore_old_updates_wrap now u (image_handler_body dev decoded declW declH caption u))

/-! ## Admin commands over the AuthorizedRegistry -/

/-- Decimal digits to a number, `none` on the empty list or any non-digit. -/
def digitsToNat (cs : List Char) : Option Nat :=
  if cs.isEmpty then none
  else
    cs.foldl
      (fun acc c =>
        match acc with
        | some a => if c.isDigit then some (a * 10 + (c.toNat - 48)) else none
        | none => none)
      (some 0)

/-- Python `int(s)` on the argument strings that reach the admin commands:
an optional sign followed by decimal digits (Telegram's argument splitting
leaves no surrounding whitespace; underscores and other bases are not in
scope).  `none` models the `ValueError` raise. -/
def pyInt? (s : String) : Option Int :=
  match s.data with
  | '+' :: rest => (digitsToNat rest).map Int.ofNat
  | '-' :: rest => (digitsToNat rest).map (fun n => -(n : Int))
  | cs => (digitsToNat cs).map Int.ofNat

/-- The in-memory `ALLOWED_TELEGRAM_USER_IDS` set together with the set last
written by `write_config` (the persisted registry). -/
structure RegState where
  allowed : Finset Int
  persisted : Finset Int

/-- `ALLOWED_TELEGRAM_USER_IDS.update(map(int, args))`: CPython consumes the
lazy `map` iterator element by element, inserting as it goes; a `ValueError`
raised by `int` mid-iteration (the `false` flag) leaves the elements already
inserted in the set. -/
def updateInts (s : Finset Int) : List String → Finset Int × Bool
  | [] => (s, true)
  | a :: as =>
    match pyInt? a with
    | none => (s, false)
    | some n => updateInts (insert n s) as

/-- `ALLOWED_TELEGRAM_USER_IDS.difference_update(map(int, args))`, with the
same element-by-element consumption of the lazy iterator. -/
def removeInts (s : Finset Int) : List String → Finset Int × Bool
  | [] => (s, true)
  | a :: as =>
    match pyInt? a with
    | none => (s, false)
    | some n => removeInts (s.erase n) as

/-- The body of `command_add` (inside `auth(admin=True)`):

```python
ALLOWED_TELEGRAM_USER_IDS.update(map(int, context.args))
write_config(ALLOWED_TELEGRAM_USER_IDS)
update.message.reply_text(f'Authorized users {ALLOWED_TELEGRAM_USER_IDS}')
```

The returned flag records whether a `ValueError` escaped; `write_config` and
the reply are only reached when parsing of every argument succeeded.  (The
set's Python `repr` inside the reply is elided: its ordering is
unspecified.) -/
def command_add_body (st : RegState) (args : List String) : List Ev × RegState × Bool :=
  let (s2, ok) := updateInts st.allowed args
  if ok then
    ([.reply "Authorized users"], ⟨s2, s2⟩, false)
  else
    ([], ⟨s2, st.persisted⟩, true)

/-- The body of `command_remove` (inside `auth(admin=True)`):

```python
if str(ADMIN_TELEGRAM_USER_ID) in context.args:
    update.message.reply_text(f'Not able to deauthorize admin user {ADMIN_TELEGRAM_USER_ID}')
    return
ALLOWED_TELEGRAM_USER_IDS.difference_update(map(int, context.args))
write_config(ALLOWED_TELEGRAM_USER_IDS)
update.message.reply_text(f'Authorized users {ALLOWED_TELEGRAM_USER_IDS}')
```

Note the guard compares the admin id's decimal string against the raw
argument strings. -/
def command_remove_body (adminId : Int) (st : RegState) (args : List String) :
    List Ev × RegState × Bool :=
  if toString adminId ∈ args then
    ([.reply ("Not able to deauthorize admin user " ++ toString adminId)], st, false)
  else
    let (s2, ok) := removeInts st.allowed args
    if ok then
      ([.reply "Authorized users"], ⟨s2, s2⟩, false)
    else
      ([], ⟨s2, st.persisted⟩, true)

/-! ## Error handler -/

/-- The classes of `context.error` distinguished by `error_handler`. -/
inductive BotErr where
  | noPaperLeft
  | noPrinterFound
  | other (desc : String)
  deriving DecidableEq, Repr

/-- The admin diagnostic message built by `error_handler`; `updateDump` and
`tbDump` stand for the (externally produced) HTML-escaped JSON dump of the
update and the joined traceback. -/
def adminErrText (updateDump tbDump : String) : String :=
  "Exception\n<pre>" ++ updateDump ++ "</pre>\n\n<pre>" ++ tbDump ++ "</pre>"

/-- `error_handler` from `main.py`:

```python
def error_handler(update: object, context: CallbackContext) -> None:
    if isinstance(context.error, NoPaperLeftException):
        update.message.reply_text("No queda papel")
    else:
        update.message.reply_text("Algo no ha ido bien")
    logger.error(...)
    tb_string = ...
    message = (f'Exception\n<pre>{...}</pre>\n\n<pre>{...}</pre>')
    context.bot.send_message(chat_id=ADMIN_TELEGRAM_USER_ID, text=message, ...)
```
-/
def error_handler (e : BotErr) (updateDump tbDump : String) : List Ev :=
  [Ev.reply (if e = .noPaperLeft then "No queda papel" else "Algo no ha ido bien"),
   Ev.notifyAdmin (adminErrText updateDump tbDump)]

/-! ## Trace observers -/

/-- Is the event a `printer.online()` call? -/
def isOnline : Ev → Bool
  | .online => true
  | _ => false

/-- Is the event a `printer.offline()` call? -/
def isOffline : Ev → Bool
  | .offline => true
  | _ => false

/-- Is the event the opening of the serial connection? -/
def isConnOpen : Ev → Bool
  | .connOpen => true
  | _ => false

/-- Is the event the closing of the serial connection? -/
def isConnClose : Ev → Bool
  | .connClose => true
  | _ => false

/-- Is the event a chat reply to the requester? -/
def isReply : Ev → Bool
  | .reply _ => true
  | _ => false

/-- Is the event a message to the admin channel? -/
def isNotifyAdmin : Ev → Bool
  | .notifyAdmin _ => true
  | _ => false

/-- Is the event a call on the printer device boundary (anything that is
neither a reply nor an admin notification)? -/
def isDeviceEv (e : Ev) : Bool :=
  !(isReply e || isNotifyAdmin e)

/-- The parsed values of the longest prefix of `args` on which `int` does not
raise; the elements the lazy `map(int, args)` iterator delivers before any
`ValueError`. -/
def parsedPrefix (args : List String) : List Int :=
  (args.takeWhile (fun a => (pyInt? a).isSome)).filterMap pyInt?

/-- Whether every argument parses as an integer (the iterator is exhausted
without raising). -/
def allParsed (args : List String) : Bool :=
  args.all (fun a => (pyInt? a).isSome)

/-! ## Helper lemmas -/

theorem splitLoop_length_le (m : Nat) (ws : List (List Char)) :
    ∀ prev last, (∀ l ∈ prev, l.length ≤ m) → last.length ≤ m →
      ∀ l ∈ splitLoop m ws prev last, l.length ≤ m := by
  induction ws with
  | nil =>
    intro prev last hprev hlast l hl
    simp only [splitLoop, List.mem_append, List.mem_singleton] at hl
    rcases hl with h | rfl
    · exact hprev l h
    · exact hlast
  | cons w ws ih =>
    intro prev last hprev hlast l hl
    simp only [splitLoop] at hl
    by_cases hfit : last.length + 1 + (w.take m).length ≤ m
    · rw [if_pos hfit] at hl
      refine ih prev _ hprev ?_ l hl
      by_cases hemp : last.isEmpty
      · rw [if_pos hemp]
        have := List.length_take m w
        omega
      · rw [if_neg hemp]
        simp only [List.length_append, List.length_cons]
        omega
    · rw [if_neg hfit] at hl
      refine ih (prev ++ [last]) _ ?_ ?_ l hl
      · intro x hx
        rcases List.mem_append.1 hx with h | h
        · exact hprev x h
        · rw [List.mem_singleton.1 h]; exact hlast
      · have := List.length_take m w
        omega

theorem splitLoop_ne_nil (m : Nat) (ws : List (List Char)) :
    ∀ prev last, (∀ l ∈ prev, l ≠ []) → last ≠ [] → (∀ v ∈ ws, v.take m ≠ []) →
      ∀ l ∈ splitLoop m ws prev last, l ≠ [] := by
  induction ws with
  | nil =>
    intro prev last hprev hlast _ l hl
    simp only [splitLoop, List.mem_append, List.mem_singleton] at hl
    rcases hl with h | rfl
    · exact hprev l h
    · exact hlast
  | cons w ws ih =>
    intro prev last hprev hlast hws l hl
    have hw : w.take m ≠ [] := hws w (List.mem_cons_self w ws)
    have hws' : ∀ v ∈ ws, v.take m ≠ [] := fun v hv => hws v (List.mem_cons_of_mem w hv)
    simp only [splitLoop] at hl
    by_cases hfit : last.length + 1 + (w.take m).length ≤ m
    · rw [if_pos hfit] at hl
      refine ih prev _ hprev ?_ hws' l hl
      by_cases hemp : last.isEmpty
      · rw [if_pos hemp]; exact hw
      · rw [if_neg hemp]
        intro hcontra
        exact hlast (List.append_eq_nil.1 hcontra).1
    · rw [if_neg hfit] at hl
      refine ih (prev ++ [last]) _ ?_ hw hws' l hl
      intro x hx
      rcases List.mem_append.1 hx with h | h
      · exact hprev x h
      · rw [List.mem_singleton.1 h]; exact hlast

theorem splitLoop_prefix (m : Nat) (ws : List (List Char)) :
    ∀ p q last, splitLoop m ws (p ++ q) last = p ++ splitLoop m ws q last := by
  induction ws with
  | nil => intro p q last; simp [splitLoop]
  | cons w ws ih =>
    intro p q last
    simp only [splitLoop]
    by_cases hfit : last.length + 1 + (w.take m).length ≤ m
    · rw [if_pos hfit, if_pos hfit, ih]
    · rw [if_neg hfit, if_neg hfit, List.append_assoc, ih]

theorem joinSep_append_extend (xs : List (List Char)) (y z : List Char) :
    joinSep (xs ++ [y ++ z]) = joinSep (xs ++ [y]) ++ z := by
  cases xs with
  | nil => simp [joinSep]
  | cons a as => simp [joinSep]

theorem joinSep_append_two (xs : List (List Char)) (y z : List Char) :
    joinSep (xs ++ [y, z]) = joinSep (xs ++ [y]) ++ ' ' :: z := by
  cases xs with
  | nil => simp [joinSep]
  | cons a as => simp [joinSep]

theorem splitLoop_joinSep (m : Nat) (ws : List (List Char)) :
    ∀ prev last, last ≠ [] → (∀ v ∈ ws, v.take m ≠ []) →
      joinSep (splitLoop m ws prev last) =
        joinSep (prev ++ [last]) ++ (ws.map (fun v => ' ' :: v.take m)).flatten := by
  induction ws with
  | nil => intro prev last _ _; simp [splitLoop]
  | cons w ws ih =>
    intro prev last hlast hws
    have hw : w.take m ≠ [] := hws w (List.mem_cons_self w ws)
    have hws' : ∀ v ∈ ws, v.take m ≠ [] := fun v hv => hws v (List.mem_cons_of_mem w hv)
    have hemp : last.isEmpty = false := by
      cases last with
      | nil => exact absurd rfl hlast
      | cons c cs => rfl
    simp only [splitLoop, hemp, if_false, Bool.false_eq_true]
    by_cases hfit : last.length + 1 + (w.take m).length ≤ m
    · rw [if_pos hfit, ih prev (last ++ ' ' :: w.take m) (by simp) hws']
      rw [joinSep_append_extend prev last (' ' :: w.take m)]
      simp [List.append_assoc]
    · rw [if_neg hfit, ih (prev ++ [last]) (w.take m) hw hws']
      rw [List.append_assoc prev [last] [w.take m]]
      simp only [List.singleton_append]
      rw [joinSep_append_two prev last (w.take m)]
      simp [List.append_assoc]

theorem pySplitAux_ne_nil (text : List Char) :
    ∀ cur, ∀ w ∈ pySplitAux text cur, w ≠ [] := by
  induction text with
  | nil =>
    intro cur w hw
    simp only [pySplitAux] at hw
    by_cases hemp : cur.isEmpty
    · rw [if_pos hemp] at hw; cases hw
    · rw [if_neg hemp] at hw
      rw [List.mem_singleton.1 hw]
      intro hcontra
      cases cur with
      | nil => exact hemp rfl
      | cons c cs => simp at hcontra
  | cons c cs ih =>
    intro cur w hw
    simp only [pySplitAux] at hw
    by_cases hws : c.isWhitespace
    · rw [if_pos hws] at hw
      by_cases hemp : cur.isEmpty
      · rw [if_pos hemp] at hw
        exact ih [] w hw
      · rw [if_neg hemp] at hw
        rcases List.mem_cons.1 hw with rfl | h
        · intro hcontra
          cases cur with
          | nil => exact hemp rfl
          | cons d ds => simp at hcontra
        · exact ih [] w h
    · rw [if_neg hws] at hw
      exact ih (c :: cur) w hw

theorem pySplit_ne_nil (text : List Char) : ∀ w ∈ pySplit text, w ≠ [] :=
  pySplitAux_ne_nil text []

/-- C6: every line of `split_text` is at most `maxWidth` long and
non-empty. -/
theorem split_text_sound (text : List Char) (maxWidth : Nat) (hw : 1 ≤ maxWidth) :
    ∀ l ∈ split_text text maxWidth, l.length ≤ maxWidth ∧ l ≠ [] := by
  intro l hl
  simp only [split_text, List.mem_filter, Bool.not_eq_eq_eq_not, Bool.not_false] at hl
  obtain ⟨hmem, hne⟩ := hl
  constructor
  · exact splitLoop_length_le maxWidth _ [] []
      (by intro x hx; cases hx) (by simp) l hmem
  · intro hcontra
    rw [hcontra] at hne
    simp [List.isEmpty] at hne

theorem pySplit_filter_eq (text : List Char) :
    (pySplit text).filter (fun w => !w.isEmpty) = pySplit text := by
  refine List.filter_eq_self.mpr (fun a ha => ?_)
  have hne := pySplit_ne_nil text a ha
  cases a with
  | nil => exact absurd rfl hne
  | cons c cs => rfl

/-- C10: joining the wrapper's output lines with single spaces yields the
input's whitespace-separated words, each truncated to `maxWidth` characters,
in order. -/
theorem split_text_preserves_words (text : List Char) (maxWidth : Nat) (hm : 1 ≤ maxWidth) :
    joinSep (split_text text maxWidth) =
      joinSep ((pySplit text).map (fun v => v.take maxWidth)) := by
  unfold split_text
  rw [pySplit_filter_eq]
  cases hws : pySplit text with
  | nil => simp [splitLoop, joinSep, List.filter]
  | cons v vs =>
    have hne : ∀ w ∈ v :: vs, w ≠ [] := by rw [← hws]; exact pySplit_ne_nil text
    have htv : v.take maxWidth ≠ [] := by
      rw [Ne, List.take_eq_nil_iff]
      push_neg
      exact ⟨by omega, hne v (List.mem_cons_self v vs)⟩
    have htvs : ∀ u ∈ vs, u.take maxWidth ≠ [] := by
      intro u hu
      rw [Ne, List.take_eq_nil_iff]
      push_neg
      exact ⟨by omega, hne u (List.mem_cons_of_mem v hu)⟩
    have hrhs : joinSep ((v :: vs).map (fun u => u.take maxWidth)) =
        v.take maxWidth ++ (vs.map (fun u => ' ' :: u.take maxWidth)).flatten := by
      simp [joinSep, List.map_map, Function.comp_def]
    rw [hrhs]
    have hfinal : ∀ L : List (List Char), (∀ l ∈ L, l ≠ []) →
        L.filter (fun l => !l.isEmpty) = L := by
      intro L hL
      refine List.filter_eq_self.mpr (fun a ha => ?_)
      cases a with
      | nil => exact absurd rfl (hL [] ha)
      | cons c cs => rfl
    simp only [splitLoop, List.isEmpty_nil, if_true, List.length_nil]
    by_cases hfit : 0 + 1 + (v.take maxWidth).length ≤ maxWidth
    · rw [if_pos hfit]
      rw [hfinal _ (splitLoop_ne_nil maxWidth vs [] (v.take maxWidth)
        (by intro x hx; cases hx) htv htvs)]
      rw [splitLoop_joinSep maxWidth vs [] (v.take maxWidth) htv htvs]
      simp [joinSep]
    · rw [if_neg hfit]
      have hpre : splitLoop maxWidth vs ([] ++ [([] : List Char)]) (v.take maxWidth) =
          [([] : List Char)] ++ splitLoop maxWidth vs [] (v.take maxWidth) :=
        splitLoop_prefix maxWidth vs [([] : List Char)] [] (v.take maxWidth)
      simp only [List.nil_append, List.singleton_append] at hpre
      simp only [List.nil_append]
      rw [hpre]
      rw [List.filter_cons]
      simp only [List.isEmpty_nil, Bool.not_true, Bool.false_eq_true, if_false]
      rw [hfinal _ (splitLoop_ne_nil maxWidth vs [] (v.take maxWidth)
        (by intro x hx; cases hx) htv htvs)]
      rw [splitLoop_joinSep maxWidth vs [] (v.take maxWidth) htv htvs]
      simp [joinSep]

theorem require_printer_success (dev : Device) (body : List Ev)
    (h1 : dev.present = true) (h2 : dev.paper = true) :
    require_printer dev body =
      ([Ev.checkDevice true, .connOpen, .online, .settle, .statusQuery true] ++ body ++
        [.offline, .connClose], none) := by
  simp [require_printer, h1, h2]

theorem require_printer_noPaper (dev : Device) (body : List Ev)
    (h1 : dev.present = true) (h2 : dev.paper = false) :
    require_printer dev body =
      ([Ev.checkDevice true, .connOpen, .online, .settle, .statusQuery false, .connClose],
        some .noPaperLeft) := by
  simp [require_printer, h1, h2]

theorem countP_outLines (p : Ev → Bool) (hp : ∀ l b d, p (Ev.outLine l b d) = false)
    (ls : List (List Char)) (b d : Bool) :
    (ls.map (fun l => Ev.outLine l b d)).countP p = 0 := by
  rw [List.countP_map]
  exact List.countP_eq_zero.mpr (fun a _ => by simp [Function.comp, hp])

/-- C1 (amended): with the device present and loaded with paper, a text
request from an authorized, fresh sender drives the printer through three
separate sessions — one per composer step (message, signature, feed) — each
opened and closed once; an image request likewise uses one session per step:
three sessions, four when a non-empty caption is attached. -/
theorem handlers_open_one_session_per_step (adminId : Int) (allowed : Finset Int)
    (now : Int) (dev : Device) (u : UpdateMsg)
    (hpres : dev.present = true) (hpap : dev.paper = true)
    (hmem : u.userId ∈ allowed) (hfresh : ¬ u.date < now - 86400) :
    ((text_handler adminId allowed now dev u).1.countP isOnline = 3 ∧
      (text_handler adminId allowed now dev u).1.countP isOffline = 3 ∧
      (text_handler adminId allowed now dev u).1.countP isConnOpen = 3 ∧
      (text_handler adminId allowed now dev u).1.countP isConnClose = 3) ∧
    (∀ decoded declW declH,
      (image_handler adminId allowed now dev decoded declW declH none u).1.countP
          isOnline = 3 ∧
      (image_handler adminId allowed now dev decoded declW declH none u).1.countP
          isConnClose = 3) ∧
    (∀ decoded declW declH c, c ≠ [] →
      (image_handler adminId allowed now dev decoded declW declH (some c) u).1.countP
          isOnline = 4 ∧
      (image_handler adminId allowed now dev decoded declW declH (some c) u).1.countP
          isConnClose = 4) := by
  have hdec : authDecision adminId allowed u.userId false = .allow := by
    simp [authDecision, hmem]
  refine ⟨?_, ?_, ?_⟩
  · simp [text_handler, auth_wrap, hdec, ignore_old_updates_wrap, hfresh,
      text_handler_body, print_message, print_signature, print_feed,
      require_printer_success _ _ hpres hpap, pseq,
      List.countP_append, List.countP_cons,
      countP_outLines isOnline (fun _ _ _ => rfl),
      countP_outLines isOffline (fun _ _ _ => rfl),
      countP_outLines isConnOpen (fun _ _ _ => rfl),
      countP_outLines isConnClose (fun _ _ _ => rfl),
      isOnline, isOffline, isConnOpen, isConnClose]
  · intro decoded declW declH
    simp [image_handler, auth_wrap, hdec, ignore_old_updates_wrap, hfresh,
      image_handler_body, print_image, print_signature, print_feed,
      require_printer_success _ _ hpres hpap, pseq,
      List.countP_append, List.countP_cons,
      isOnline, isConnClose]
  · intro decoded declW declH c hc
    have hce : c.isEmpty = false := by
      cases c with
      | nil => exact absurd rfl hc
      | cons x xs => rfl
    simp [image_handler, auth_wrap, hdec, ignore_old_updates_wrap, hfresh,
      image_handler_body, print_image, print_message, print_signature, print_feed, hce,
      require_printer_success _ _ hpres hpap, pseq,
      List.countP_append, List.countP_cons,
      countP_outLines isOnline (fun _ _ _ => rfl),
      countP_outLines isConnClose (fun _ _ _ => rfl),
      isOnline, isConnClose]

theorem updateInts_eq (args : List String) :
    ∀ s : Finset Int,
      updateInts s args =
        ((parsedPrefix args).foldl (fun t n => insert n t) s, allParsed args) := by
  induction args with
  | nil => intro s; simp [updateInts, parsedPrefix, allParsed]
  | cons a as ih =>
    intro s
    cases hpa : pyInt? a with
    | none =>
      simp [updateInts, hpa, parsedPrefix, allParsed, List.takeWhile_cons, List.all_cons]
    | some n =>
      simp only [updateInts, hpa, ih, parsedPrefix, allParsed,
        List.takeWhile_cons, Option.isSome_some, if_true, List.filterMap_cons,
        List.all_cons, Bool.true_and, List.foldl_cons]

theorem removeInts_eq (args : List String) :
    ∀ s : Finset Int,
      removeInts s args =
        ((parsedPrefix args).foldl (fun t n => t.erase n) s, allParsed args) := by
  induction args with
  | nil => intro s; simp [removeInts, parsedPrefix, allParsed]
  | cons a as ih =>
    intro s
    cases hpa : pyInt? a with
    | none =>
      simp [removeInts, hpa, parsedPrefix, allParsed, List.takeWhile_cons, List.all_cons]
    | some n =>
      simp only [removeInts, hpa, ih, parsedPrefix, allParsed,
        List.takeWhile_cons, Option.isSome_some, if_true, List.filterMap_cons,
        List.all_cons, Bool.true_and, List.foldl_cons]

/-- C8 (amended): the persisted registry is all-or-nothing — it is rewritten
only when every argument parses, and is untouched when the command raises —
but the in-memory set is not: on a parse failure the identities preceding the
unparsable argument have already been applied to it (inserted by `/add`,
removed by `/remove`), so memory and disk diverge until the next successful
write. -/
theorem registry_mutation_behaviour (adminId : Int) (st : RegState) (args : List String) :
    ((command_add_body st args).2.2 = !allParsed args ∧
      (command_add_body st args).2.1.allowed =
        (parsedPrefix args).foldl (fun t n => insert n t) st.allowed ∧
      ((command_add_body st args).2.2 = true →
        (command_add_body st args).2.1.persisted = st.persisted) ∧
      ((command_add_body st args).2.2 = false →
        (command_add_body st args).2.1.persisted = (command_add_body st args).2.1.allowed)) ∧
    (toString adminId ∉ args →
      (command_remove_body adminId st args).2.2 = !allParsed args ∧
      (command_remove_body adminId st args).2.1.allowed =
        (parsedPrefix args).foldl (fun t n => t.erase n) st.allowed ∧
      ((command_remove_body adminId st args).2.2 = true →
        (command_remove_body adminId st args).2.1.persisted = st.persisted) ∧
      ((command_remove_body adminId st args).2.2 = false →
        (command_remove_body adminId st args).2.1.persisted =
          (command_remove_body adminId st args).2.1.allowed)) := by
  constructor
  · cases hall : allParsed args with
    | false => simp [command_add_body, updateInts_eq, hall]
    | true => simp [command_add_body, updateInts_eq, hall]
  · intro hnotin
    cases hall : allParsed args with
    | false => simp [command_remove_body, removeInts_eq, hall, hnotin]
    | true => simp [command_remove_body, removeInts_eq, hall, hnotin]

/-- C9: a `/remove` whose raw argument list contains the admin id's decimal
string is rejected before any set difference: the only effect is the
rejection reply, the in-memory set and the persisted registry are both left
exactly as they were, and no exception is raised. -/
theorem remove_admin_token_rejected (adminId : Int) (st : RegState) (args : List String)
    (h : toString adminId ∈ args) :
    command_remove_body adminId st args =
      ([.reply ("Not able to deauthorize admin user " ++ toString adminId)], st, false) := by
  simp [command_remove_body, h]

/-- C4 (amended): when the status query inside an open session reports no
paper, the connection is still closed — the context-managed release runs, and
it is the last device action before `NoPaperLeftException` propagates — but
the `Offline` power-saving transition is *not* performed; `offline()` runs
only on the success path. -/
theorem no_paper_closes_without_offline (dev : Device) (body : List Ev)
    (h1 : dev.present = true) (h2 : dev.paper = false) :
    (require_printer dev body).2 = some .noPaperLeft ∧
    Ev.connClose ∈ (require_printer dev body).1 ∧
    (require_printer dev body).1.getLast? = some Ev.connClose ∧
    Ev.offline ∉ (require_printer dev body).1 := by
  rw [require_printer_noPaper dev body h1 h2]
  refine ⟨rfl, by decide, rfl, by decide⟩

/-- C3 (amended): `error_handler` always sends the requester exactly one
reply — the specific \"No queda papel\" exactly when the failure is
`NoPaperLeftException`, the generic \"Algo no ha ido bien\" for everything
else, `NoPrinterFoundException` included — and *always* sends exactly one
admin-channel message carrying the serialized update and the failure
traceback, for business-level failures just as for unexpected ones. -/
theorem error_reporting (e : BotErr) (updateDump tbDump : String) :
    (error_handler e updateDump tbDump).countP isReply = 1 ∧
    (error_handler e updateDump tbDump).countP isNotifyAdmin = 1 ∧
    Ev.notifyAdmin (adminErrText updateDump tbDump) ∈ error_handler e updateDump tbDump ∧
    (Ev.reply "No queda papel" ∈ error_handler e updateDump tbDump ↔ e = .noPaperLeft) ∧
    (e ≠ .noPaperLeft →
      Ev.reply "Algo no ha ido bien" ∈ error_handler e updateDump tbDump) := by
  cases e <;>
    simp [error_handler, adminErrText, isReply, isNotifyAdmin,
      List.countP_cons, String.ext_iff]

/-- C2 (amended): access control runs *before* the freshness filter (the
`auth` decorator is outermost).  A stale request — dated more than 24 hours
before now — never reaches the printer, but it is not silent: an authorized
sender still receives the 'Recibido' and 'OK' acknowledgements, and an
unauthorized sender still triggers the denial reply plus the admin
notification.  Only the freshness layer itself adds no reply. -/
theorem stale_requests_checked_after_auth (adminId : Int) (allowed : Finset Int)
    (now : Int) (dev : Device) (decoded : PILImage) (declW declH : Nat)
    (caption : Option (List Char)) (u : UpdateMsg)
    (hstale : u.date < now - 86400) :
    (u.userId ∈ allowed →
      text_handler adminId allowed now dev u = ([.reply "Recibido", .reply "OK"], none) ∧
      image_handler adminId allowed now dev decoded declW declH caption u =
        ([.reply "Recibido", .reply "OK"], none)) ∧
    (u.userId ∉ allowed →
      text_handler adminId allowed now dev u =
        ([.reply (denyUnregisteredMsg u), .notifyAdmin (unauthorizedNote u)], none) ∧
      image_handler adminId allowed now dev decoded declW declH caption u =
        ([.reply (denyUnregisteredMsg u), .notifyAdmin (unauthorizedNote u)], none)) := by
  constructor
  · intro hmem
    have hdec : authDecision adminId allowed u.userId false = .allow := by
      simp [authDecision, hmem]
    constructor <;>
      simp [text_handler, image_handler, auth_wrap, hdec,
        ignore_old_updates_wrap, hstale]
  · intro hmem
    have hdec : authDecision adminId allowed u.userId false = .denyUnregistered := by
      simp [authDecision, hmem]
    constructor <;>
      simp [text_handler, image_handler, auth_wrap, hdec,
        ignore_old_updates_wrap, hstale]

/-! ## Remaining claim theorems, counterexamples and witnesses -/

/-- C7 (amended): the processed image's width is exactly `targetWidth` for
every input, and for a landscape input the decoded dimensions are swapped
before scaling; but the output height is `int(rotatedHeight / scale)`
computed in binary64 floating point, which does not always equal
`floor(rotatedHeight * targetWidth / rotatedWidth)`: it does when the
arithmetic is exact (640×480 → 384×512), while a 25×225 bitmap yields 3455
where the exact floor is 3456. -/
theorem beautify_dimensions :
    (∀ decoded declW declH mw, (beautify decoded declW declH mw).width = mw) ∧
    (beautify ⟨640, 480⟩ 640 480 384).height = (640 * 384) / 480 ∧
    (beautify ⟨25, 225⟩ 25 225 384).height = 3455 ∧
    (beautify ⟨25, 225⟩ 25 225 384).height ≠ (225 * 384) / 25 := by
  exact ⟨fun decoded declW declH mw => rfl, by decide, by decide, by decide⟩

/-- C7 counterexample: on a 25×225 portrait bitmap (no rotation) with target
width 384 the code computes height 3455, but the exact rational floor
`⌊225 · 384 / 25⌋` is 3456 — the double rounding of
`225 / (25 / 384.0)` lands just below the exact integer quotient. -/
theorem beautify_height_not_exact_floor :
    (beautify ⟨25, 225⟩ 25 225 384).width = 384 ∧
    (225 * 384) / 25 = 3456 ∧
    (beautify ⟨25, 225⟩ 25 225 384).height ≠ (225 * 384) / 25 := by decide

/-- C5: the code evaluated at the failing input.  With admin id 123 and
registry `{123, 456}` (reachable from the bootstrap registry `{123}` by
`/add 456`), the command `/remove 0123` slips past the string-equality guard
(`"123" ∉ ["0123"]`) even though `int("0123") = 123`, removes the admin from
the registry, persists the result — and afterwards the auth gate denies the
admin, with and without the admin requirement. -/
theorem admin_removable_via_noncanonical_string :
    pyInt? "0123" = some 123 ∧
    toString (123 : Int) ∉ (["0123"] : List String) ∧
    (command_add_body ⟨{123}, {123}⟩ ["456"]).2.1.allowed = {123, 456} ∧
    (command_remove_body 123 ⟨{123, 456}, {123, 456}⟩ ["0123"]).2.1.allowed = {456} ∧
    (command_remove_body 123 ⟨{123, 456}, {123, 456}⟩ ["0123"]).2.1.persisted = {456} ∧
    (123 : Int) ∉ ({456} : Finset Int) ∧
    authDecision 123 {456} 123 true = .denyUnregistered ∧
    authDecision 123 {456} 123 false = .denyUnregistered := by decide

/-- C1 counterexample: a fresh text message from an authorized user drives
three `online()` transitions — one per composer step — not one. -/
theorem text_request_not_single_session :
    ((text_handler 99 {7} 200000 ⟨true, true, 32⟩
        ⟨7, "Ana", "B", "anab", "hello   world".data, 150000⟩).1.countP isOnline = 3) ∧
    ¬ ((text_handler 99 {7} 200000 ⟨true, true, 32⟩
        ⟨7, "Ana", "B", "anab", "hello   world".data, 150000⟩).1.countP isOnline = 1) := by
  decide

/-- C1 witness: the amended theorem applied to the same concrete request. -/
theorem text_request_three_sessions_witness :
    (text_handler 99 {7} 200000 ⟨true, true, 32⟩
        ⟨7, "Ana", "B", "anab", "hello   world".data, 150000⟩).1.countP isOnline = 3 :=
  (handlers_open_one_session_per_step 99 {7} 200000 ⟨true, true, 32⟩
    ⟨7, "Ana", "B", "anab", "hello   world".data, 150000⟩
    rfl rfl (by decide) (by decide)).1.1

/-- C2 counterexample: a stale (25 h old) message from an authorized user is
not dropped silently — the auth layer runs first and still replies
'Recibido' and 'OK'; a stale message from an unauthorized user still fires
the admin notification. -/
theorem stale_request_not_silent :
    (text_handler 99 {7} 200000 ⟨true, true, 32⟩
        ⟨7, "Ana", "B", "anab", "hola".data, 0⟩) =
      ([.reply "Recibido", .reply "OK"], none) ∧
    ((text_handler 99 {7} 200000 ⟨true, true, 32⟩
        ⟨7, "Ana", "B", "anab", "hola".data, 0⟩).1 ≠ []) ∧
    ((text_handler 99 {7} 200000 ⟨true, true, 32⟩
        ⟨8, "Eva", "X", "evax", "hola".data, 0⟩).1.countP isNotifyAdmin = 1) := by
  decide

/-- C2 witness: the amended theorem applied to the stale authorized
request. -/
theorem stale_request_acknowledged_witness :
    text_handler 99 {7} 200000 ⟨true, true, 32⟩
        ⟨7, "Ana", "B", "anab", "hola".data, 0⟩ =
      ([.reply "Recibido", .reply "OK"], none) :=
  ((stale_requests_checked_after_auth 99 {7} 200000 ⟨true, true, 32⟩ ⟨1, 1⟩ 1 1 none
    ⟨7, "Ana", "B", "anab", "hola".data, 0⟩ (by decide)).1 (by decide)).1

/-- C3 counterexample: a `NoPaperLeftException` (and likewise a
`NoPrinterFoundException`) *is* reported to the admin channel. -/
theorem no_paper_failure_reported_to_admin :
    (error_handler .noPaperLeft "u" "t").countP isNotifyAdmin = 1 ∧
    ¬ ((error_handler .noPaperLeft "u" "t").countP isNotifyAdmin = 0) ∧
    (error_handler .noPrinterFound "u" "t").countP isNotifyAdmin = 1 := by decide

/-- C3 witness: the amended theorem applied to `NoPrinterFoundException`. -/
theorem error_reporting_witness :
    (error_handler .noPrinterFound "u" "t").countP isNotifyAdmin = 1 :=
  (error_reporting .noPrinterFound "u" "t").2.1

/-- C4 counterexample: with paper out, the session fails with
`NoPaperLeftException` and `offline()` is never invoked. -/
theorem no_paper_offline_skipped :
    (require_printer ⟨true, false, 32⟩ [Ev.feedPaper 2]).2 = some .noPaperLeft ∧
    Ev.offline ∉ (require_printer ⟨true, false, 32⟩ [Ev.feedPaper 2]).1 := by decide

/-- C4 witness: the amended theorem applied to a concrete paper-out
session. -/
theorem no_paper_closes_witness :
    (require_printer ⟨true, false, 32⟩ [Ev.feedPaper 2]).2 = some .noPaperLeft :=
  (no_paper_closes_without_offline ⟨true, false, 32⟩ [Ev.feedPaper 2] rfl rfl).1

/-- C6 witness: the bound theorem applied to `wrap("abc def", 3)` at the line
`"abc"`. -/
theorem split_text_sound_witness :
    "abc".data.length ≤ 3 ∧ "abc".data ≠ [] :=
  split_text_sound "abc def".data 3 (by decide) "abc".data (by decide)

/-- C8 counterexample: `/add 5 x` on registry `{1}`: the parse failure on
`"x"` raises after `5` was already inserted — the in-memory set becomes
`{1, 5}` while the persisted registry stays `{1}`: neither all-applied nor
untouched. -/
theorem add_parse_failure_partial_mutation :
    (command_add_body ⟨{1}, {1}⟩ ["5", "x"]).2.2 = true ∧
    (command_add_body ⟨{1}, {1}⟩ ["5", "x"]).2.1.allowed = {1, 5} ∧
    (command_add_body ⟨{1}, {1}⟩ ["5", "x"]).2.1.persisted = {1} ∧
    ({1, 5} : Finset Int) ≠ {1} := by decide

/-- C8 witness: the amended theorem applied to `/add 5 x` on `{1}`,
extracting that the persisted registry is untouched by the failing
command. -/
theorem registry_mutation_witness :
    (command_add_body ⟨{1}, {1}⟩ ["5", "x"]).2.1.persisted = ({1} : Finset Int) :=
  (registry_mutation_behaviour 0 ⟨{1}, {1}⟩ ["5", "x"]).1.2.2.1 (by decide)

/-- C9 witness: the rejection theorem applied to `/remove 1` with admin id
1 on registry `{1, 2}`. -/
theorem remove_admin_token_rejected_witness :
    command_remove_body 1 ⟨{1, 2}, {1, 2}⟩ ["1"] =
      ([.reply ("Not able to deauthorize admin user " ++ toString (1 : Int))],
        ⟨{1, 2}, {1, 2}⟩, false) :=
  remove_admin_token_rejected 1 ⟨{1, 2}, {1, 2}⟩ ["1"] (by decide)

/-- C10 witness: word preservation at `wrap("abc def", 2)` (both words
truncated). -/
theorem split_text_preserves_words_witness :
    joinSep (split_text "abc def".data 2) =
      joinSep ((pySplit "abc def".data).map (fun v => v.take 2)) :=
  split_text_preserves_words "abc def".data 2 (by decide)

/-! ## The spec's concrete test vectors (§8) -/

example : split_text "abc".data 32 = ["abc".data] := by decide
example : split_text "abc def".data 3 = ["abc".data, "def".data] := by decide
example : split_text "abc def".data 7 = ["abc def".data] := by decide
example : split_text "abc def".data 2 = ["ab".data, "de".data] := by decide
example : split_text "abc\r\n\tdef".data 32 = ["abc def".data] := by decide
example : split_text "hello   world".data 32 = ["hello world".data] := by decide
example : beautify ⟨640, 480⟩ 640 480 384 = ⟨384, 512⟩ := by decide

end Ludivina
